import Mathlib

/-!
Shallow embedding of the med2predict risk engine and input pipeline.

JavaScript numbers are modelled as exact rationals (ℚ); every decimal
constant of the source is an exact decimal fraction, and all arithmetic
performed by the engine (sums of products of such constants, comparisons
against decimal breakpoints, `Math.round(x*100)/100`) stays far from any
branch boundary at double precision, so the rational model and the IEEE
double computation take the same branches and produce values that agree
at the granularity every statement below inspects.

`Math.random() * 0.05 - 0.025` (the jitter added to the probability) is
modelled as an explicit parameter `jitter`; it is the only source of
nondeterminism inside `calculateRisk`.
-/

namespace Med2Predict

/-! ### Data model (riskCalculator: `PatientData`, result types) -/

inductive Sex
| male
| female
deriving DecidableEq, Repr

inductive ChestPainType
| typicalAngina
| atypicalAngina
| nonAnginal
| asymptomatic
deriving DecidableEq, Repr

inductive RestingECG
| normal
| lvHypertrophy
| stTAbnormality
deriving DecidableEq, Repr

inductive STSlope
| upsloping
| flat
| downsloping
deriving DecidableEq, Repr

/-- The source string of each `chestPainType` enum value. -/
def ChestPainType.toSource : ChestPainType → String
| .typicalAngina => "typical angina"
| .atypicalAngina => "atypical angina"
| .nonAnginal => "non-anginal"
| .asymptomatic => "asymptomatic"

/-- The source string of each `stSlope` enum value. -/
def STSlope.toSource : STSlope → String
| .upsloping => "upsloping"
| .flat => "flat"
| .downsloping => "downsloping"

structure PatientData where
  patientId : String
  age : ℚ
  sex : Sex
  chestPainType : ChestPainType
  restingBP : ℚ
  cholesterol : ℚ
  fastingBloodSugar : Bool
  restingECG : RestingECG
  maxHeartRate : ℚ
  exerciseAngina : Bool
  stDepression : ℚ
  stSlope : STSlope
deriving DecidableEq, Repr

structure FeatureContribution where
  feature : String
  value : String
  impact : ℚ
  description : String
deriving DecidableEq, Repr

inductive RiskLevel
| low
| medium
| high
deriving DecidableEq, Repr

inductive ThresholdStatus
| normal
| elevated
| borderline
| high
deriving DecidableEq, Repr

structure ClinicalThreshold where
  metric : String
  patientValue : String
  clinicalTarget : String
  status : ThresholdStatus
deriving DecidableEq, Repr

structure RiskResult where
  riskLevel : RiskLevel
  probability : ℚ
  featureContributions : List FeatureContribution
  clinicalThresholds : List ClinicalThreshold
  interpretation : String
deriving DecidableEq, Repr

/-! ### Feature weights (`FEATURE_WEIGHTS`) -/

def FEATURE_WEIGHTS.chestPainType : ℚ := 0.22
def FEATURE_WEIGHTS.maxHeartRate : ℚ := 0.18
def FEATURE_WEIGHTS.stDepression : ℚ := 0.15
def FEATURE_WEIGHTS.age : ℚ := 0.12
def FEATURE_WEIGHTS.restingBP : ℚ := 0.10
def FEATURE_WEIGHTS.cholesterol : ℚ := 0.08
def FEATURE_WEIGHTS.stSlope : ℚ := 0.06
def FEATURE_WEIGHTS.exerciseAngina : ℚ := 0.05
def FEATURE_WEIGHTS.sex : ℚ := 0.02
def FEATURE_WEIGHTS.fastingBloodSugar : ℚ := 0.01
def FEATURE_WEIGHTS.restingECG : ℚ := 0.01

/-! ### Feature scoring functions -/

def calculateChestPainScore : ChestPainType → ℚ
| .asymptomatic => 0.9
| .nonAnginal => 0.4
| .atypicalAngina => 0.3
| .typicalAngina => 0.2

def calculateAgeScore (age : ℚ) : ℚ :=
  if age < 40 then 0.1
  else if age < 50 then 0.3
  else if age < 60 then 0.5
  else if age < 70 then 0.7
  else 0.9

def calculateBPScore (bp : ℚ) : ℚ :=
  if bp < 120 then 0.1
  else if bp < 130 then 0.3
  else if bp < 140 then 0.5
  else if bp < 160 then 0.7
  else 0.9

def calculateCholesterolScore (chol : ℚ) : ℚ :=
  if chol < 200 then 0.1
  else if chol < 240 then 0.4
  else if chol < 280 then 0.6
  else 0.9

def calculateMaxHRScore (hr : ℚ) (age : ℚ) : ℚ :=
  let maxPredicted := 220 - age
  let percentage := hr / maxPredicted
  if percentage > 0.85 then 0.1
  else if percentage > 0.75 then 0.3
  else if percentage > 0.65 then 0.6
  else 0.9

def calculateSTDepressionScore (depression : ℚ) : ℚ :=
  if depression ≤ 0 then 0.0
  else if depression < 1 then 0.3
  else if depression < 2 then 0.6
  else 0.9

def calculateSlopeScore : STSlope → ℚ
| .upsloping => 0.1
| .flat => 0.6
| .downsloping => 0.8

def anginaScoreOf (exerciseAngina : Bool) : ℚ := if exerciseAngina then 0.8 else 0.2

def sexScoreOf (sex : Sex) : ℚ := if sex = .male then 0.6 else 0.4

def fbsScoreOf (fastingBloodSugar : Bool) : ℚ := if fastingBloodSugar then 0.7 else 0.3

def ecgScoreOf (ecg : RestingECG) : ℚ := if ecg = .lvHypertrophy then 0.6 else 0.3

/-! ### Aggregation -/

/-- The weighted sum of sub-scores (source lines 132-143), before jitter
and clamping. -/
def rawProbability (p : PatientData) : ℚ :=
  calculateChestPainScore p.chestPainType * FEATURE_WEIGHTS.chestPainType +
  calculateMaxHRScore p.maxHeartRate p.age * FEATURE_WEIGHTS.maxHeartRate +
  calculateSTDepressionScore p.stDepression * FEATURE_WEIGHTS.stDepression +
  calculateAgeScore p.age * FEATURE_WEIGHTS.age +
  calculateBPScore p.restingBP * FEATURE_WEIGHTS.restingBP +
  calculateCholesterolScore p.cholesterol * FEATURE_WEIGHTS.cholesterol +
  calculateSlopeScore p.stSlope * FEATURE_WEIGHTS.stSlope +
  anginaScoreOf p.exerciseAngina * FEATURE_WEIGHTS.exerciseAngina +
  sexScoreOf p.sex * FEATURE_WEIGHTS.sex +
  fbsScoreOf p.fastingBloodSugar * FEATURE_WEIGHTS.fastingBloodSugar +
  ecgScoreOf p.restingECG * FEATURE_WEIGHTS.restingECG

/-- `probability = Math.min(0.99, Math.max(0.05, probability + jitter))`,
where `jitter` stands for `Math.random() * 0.05 - 0.025`. -/
def probabilityOf (p : PatientData) (jitter : ℚ) : ℚ :=
  min 0.99 (max 0.05 (rawProbability p + jitter))

/-- Risk tier from probability (source lines 175-182). -/
def riskLevelOf (probability : ℚ) : RiskLevel :=
  if probability ≥ 0.65 then .high
  else if probability ≥ 0.35 then .medium
  else .low

/-! ### Rounding helpers (JS `Math.round`) -/

/-- JS `Math.round x = ⌊x + 0.5⌋`. -/
def jsRound (x : ℚ) : ℤ := Rat.floor (x + 0.5)

/-- `Math.round (impact * 100) / 100`, rounding to two decimals. -/
def roundTwo (x : ℚ) : ℚ := ((jsRound (x * 100) : ℤ) : ℚ) / 100

/-! ### Explanation (SHAP-like contributions, source lines 149-172) -/

structure RawContribution where
  feature : String
  value : String
  rawScore : ℚ
  weight : ℚ
  description : String

/-- The `rawContributions` array (source lines 149-158): eight entries, one
per explained feature. -/
def rawContributions (p : PatientData) : List RawContribution :=
  [ { feature := "Chest Pain Type", value := p.chestPainType.toSource,
      rawScore := calculateChestPainScore p.chestPainType,
      weight := FEATURE_WEIGHTS.chestPainType,
      description := if p.chestPainType = .asymptomatic then
          "Asymptomatic presentation often indicates serious underlying condition"
        else "Chest pain pattern assessment" },
    { feature := "Max Heart Rate", value := toString p.maxHeartRate ++ " bpm",
      rawScore := calculateMaxHRScore p.maxHeartRate p.age,
      weight := FEATURE_WEIGHTS.maxHeartRate,
      description := toString (jsRound (p.maxHeartRate / (220 - p.age) * 100)) ++
        "% of age-predicted maximum" },
    { feature := "ST Depression", value := toString p.stDepression,
      rawScore := calculateSTDepressionScore p.stDepression,
      weight := FEATURE_WEIGHTS.stDepression,
      description := if p.stDepression > 1 then
          "Significant ST depression indicates ischemia"
        else "ECG ST segment analysis" },
    { feature := "Age", value := toString p.age ++ " years",
      rawScore := calculateAgeScore p.age,
      weight := FEATURE_WEIGHTS.age,
      description := if p.age > 55 then
          "Age is a significant cardiovascular risk factor"
        else "Age-related risk assessment" },
    { feature := "Resting BP", value := toString p.restingBP ++ " mmHg",
      rawScore := calculateBPScore p.restingBP,
      weight := FEATURE_WEIGHTS.restingBP,
      description := if p.restingBP ≥ 140 then
          "Hypertensive range blood pressure"
        else "Blood pressure assessment" },
    { feature := "Cholesterol", value := toString p.cholesterol ++ " mg/dL",
      rawScore := calculateCholesterolScore p.cholesterol,
      weight := FEATURE_WEIGHTS.cholesterol,
      description := if p.cholesterol ≥ 240 then
          "High cholesterol level"
        else "Lipid profile assessment" },
    { feature := "ST Slope", value := p.stSlope.toSource,
      rawScore := calculateSlopeScore p.stSlope,
      weight := FEATURE_WEIGHTS.stSlope,
      description := "Exercise ECG slope pattern" },
    { feature := "Exercise Angina", value := if p.exerciseAngina then "Yes" else "No",
      rawScore := anginaScoreOf p.exerciseAngina,
      weight := FEATURE_WEIGHTS.exerciseAngina,
      description := if p.exerciseAngina then
          "Exercise-induced angina present"
        else "No exercise-induced symptoms" } ]

/-- `impact = Math.round ((rawScore - 0.5) * weight * 2 * 100) / 100`
(source lines 161-169). -/
def contributionOf (c : RawContribution) : FeatureContribution :=
  { feature := c.feature, value := c.value,
    impact := roundTwo ((c.rawScore - 0.5) * c.weight * 2),
    description := c.description }

/-- The `contributions` array before sorting. -/
def contributionsUnsorted (p : PatientData) : List FeatureContribution :=
  (rawContributions p).map contributionOf

/-- The comparator `(a, b) => Math.abs(b.impact) - Math.abs(a.impact)`:
`a` is placed no later than `b` exactly when `|a.impact| ≥ |b.impact|`. -/
def impactGE (a b : FeatureContribution) : Bool := decide (|b.impact| ≤ |a.impact|)

/-- `contributions.sort(...)` (source line 172): a stable sort by descending
absolute impact. -/
def contributionsSorted (p : PatientData) : List FeatureContribution :=
  (contributionsUnsorted p).mergeSort impactGE

/-! ### Clinical thresholds (source lines 185-210) -/

def buildClinicalThresholds (p : PatientData) : List ClinicalThreshold :=
  [ { metric := "Blood Pressure",
      patientValue := toString p.restingBP ++ " mmHg",
      clinicalTarget := "< 120 mmHg",
      status := if p.restingBP ≥ 140 then .high
        else if p.restingBP ≥ 130 then .elevated
        else .normal },
    { metric := "Total Cholesterol",
      patientValue := toString p.cholesterol ++ " mg/dL",
      clinicalTarget := "< 200 mg/dL",
      status := if p.cholesterol ≥ 240 then .high
        else if p.cholesterol ≥ 200 then .borderline
        else .normal },
    { metric := "Max Heart Rate",
      patientValue := toString p.maxHeartRate ++ " bpm",
      clinicalTarget := "> " ++ toString (jsRound ((220 - p.age) * 0.85)) ++ " bpm",
      status := if p.maxHeartRate < (220 - p.age) * 0.65 then .high
        else if p.maxHeartRate < (220 - p.age) * 0.85 then .borderline
        else .normal },
    { metric := "ST Depression",
      patientValue := toString p.stDepression ++ " mm",
      clinicalTarget := "< 1.0 mm",
      status := if p.stDepression ≥ 2 then .high
        else if p.stDepression ≥ 1 then .elevated
        else .normal } ]

/-! ### Interpretation and the full assessment (source lines 212-231) -/

def interpretationOf (sorted : List FeatureContribution) (riskLevel : RiskLevel)
    (probability : ℚ) : String :=
  let highRiskFactors := (sorted.filter (fun c => c.impact > 0.05)).map (·.feature)
  match riskLevel with
  | .high =>
      "Patient falls into the high-risk category (" ++
      toString (jsRound (probability * 100)) ++
      "% probability). Key contributing factors: " ++
      String.intercalate ", " (highRiskFactors.take 3) ++
      ". Immediate cardiovascular evaluation recommended."
  | .medium =>
      "Patient shows moderate cardiovascular risk (" ++
      toString (jsRound (probability * 100)) ++
      "% probability). Monitor: " ++
      String.intercalate ", " (highRiskFactors.take 2) ++
      ". Lifestyle modifications and follow-up recommended."
  | .low =>
      "Patient demonstrates low cardiovascular risk (" ++
      toString (jsRound (probability * 100)) ++
      "% probability). Continue preventive measures and regular check-ups."

/-- `calculateRisk` with the jitter (`Math.random() * 0.05 - 0.025`) made an
explicit parameter. -/
def calculateRisk (p : PatientData) (jitter : ℚ) : RiskResult :=
  let probability := probabilityOf p jitter
  let riskLevel := riskLevelOf probability
  let sorted := contributionsSorted p
  { riskLevel := riskLevel,
    probability := probability,
    featureContributions := sorted.take 6,
    clinicalThresholds := buildClinicalThresholds p,
    interpretation := interpretationOf sorted riskLevel probability }

/-! ### The spec's §8 example patient (claim C1) -/

def examplePatient : PatientData :=
  { patientId := "P-1", age := 63, sex := .male,
    chestPainType := .typicalAngina, restingBP := 145, cholesterol := 233,
    fastingBloodSugar := true, restingECG := .lvHypertrophy,
    maxHeartRate := 150, exerciseAngina := false, stDepression := 2.3,
    stSlope := .downsloping }

/-! ### Health limits (validation.ts `HEALTH_LIMITS`) -/

structure HealthLimit where
  min : ℚ
  max : ℚ

def HEALTH_LIMITS.age : HealthLimit := ⟨1, 120⟩
def HEALTH_LIMITS.restingBP : HealthLimit := ⟨60, 250⟩
def HEALTH_LIMITS.cholesterol : HealthLimit := ⟨50, 600⟩
def HEALTH_LIMITS.maxHeartRate : HealthLimit := ⟨40, 250⟩
def HEALTH_LIMITS.stDepression : HealthLimit := ⟨0, 10⟩

/-- Every numeric field of a record is within its `HEALTH_LIMITS` bound. -/
def inBounds (p : PatientData) : Prop :=
  HEALTH_LIMITS.age.min ≤ p.age ∧ p.age ≤ HEALTH_LIMITS.age.max ∧
  HEALTH_LIMITS.restingBP.min ≤ p.restingBP ∧ p.restingBP ≤ HEALTH_LIMITS.restingBP.max ∧
  HEALTH_LIMITS.cholesterol.min ≤ p.cholesterol ∧ p.cholesterol ≤ HEALTH_LIMITS.cholesterol.max ∧
  HEALTH_LIMITS.maxHeartRate.min ≤ p.maxHeartRate ∧ p.maxHeartRate ≤ HEALTH_LIMITS.maxHeartRate.max ∧
  HEALTH_LIMITS.stDepression.min ≤ p.stDepression ∧ p.stDepression ≤ HEALTH_LIMITS.stDepression.max

/-! ### Age-adjusted heart-rate plausibility check (validation.ts) -/

/-- `validateMaxHeartRateForAge` (validation.ts lines 100-109). -/
def validateMaxHeartRateForAge (age maxHR : ℚ) : Option String :=
  let theoreticalMax := 220 - age
  let absoluteMax := min (theoreticalMax + 20) 220
  if maxHR > absoluteMax then
    some ("Maximum heart rate of " ++ toString maxHR ++ " bpm seems high for age " ++
      toString age ++ ". Theoretical maximum is " ++ toString theoreticalMax ++ " bpm.")
  else
    none

/-! ### Lenient CSV ingestion (PatientDataForm.tsx `parseCSV`)

`parseInt` / `parseFloat` are the JS builtins restricted to the decimal
forms that matter here: optional sign followed by a digit run (and for
`parseFloat` an optional fraction); any cell with no leading numeric
prefix parses to `NaN`, modelled as `none`. -/

/-- `Math.max lo (Math.min hi x)`: clamp into `[lo, hi]`. -/
def clampQ (lo hi x : ℚ) : ℚ := max lo (min hi x)

/-- Whitespace trimming on both ends (JS `String.prototype.trim`),
implemented structurally over the character list. -/
def trimList (cs : List Char) : List Char :=
  ((cs.dropWhile Char.isWhitespace).reverse.dropWhile Char.isWhitespace).reverse

def jsTrim (s : String) : String := ⟨trimList s.data⟩

/-- JS `String.prototype.split` with a one-character separator. -/
def splitListAux (sep : Char) : List Char → List Char → List (List Char)
| [], acc => [acc.reverse]
| c :: rest, acc =>
    if c == sep then acc.reverse :: splitListAux sep rest []
    else splitListAux sep rest (c :: acc)

def jsSplit (sep : Char) (s : String) : List String :=
  (splitListAux sep s.data []).map String.mk

/-- JS `String.prototype.toLowerCase` (ASCII, which is all the headers use). -/
def jsToLower (s : String) : String := ⟨s.data.map Char.toLower⟩

/-- The longest leading run of decimal digits. -/
def leadingDigits : List Char → List Char
| [] => []
| c :: cs => if c.isDigit then c :: leadingDigits cs else []

def digitsVal : List Char → ℕ → ℕ
| [], acc => acc
| c :: cs, acc => digitsVal cs (10 * acc + (c.toNat - 48))

/-- Signed digit run at the head of `cs`, as (sign, digits, rest). -/
def splitNumber (cs : List Char) : (Bool × List Char × List Char) :=
  match cs with
  | '-' :: rest => (true, leadingDigits rest, rest.drop (leadingDigits rest).length)
  | '+' :: rest => (false, leadingDigits rest, rest.drop (leadingDigits rest).length)
  | rest => (false, leadingDigits rest, rest.drop (leadingDigits rest).length)

/-- JS `parseInt(s)` for decimal input: `none` models `NaN`. -/
def jsParseInt (s : String) : Option ℚ :=
  let (neg, ds, _) := splitNumber (trimList s.data)
  if ds.isEmpty then none
  else
    let n : ℚ := (digitsVal ds 0 : ℕ)
    some (if neg then -n else n)

/-- JS `parseFloat(s)` for plain decimal input (optional fraction part):
`none` models `NaN`. -/
def jsParseFloat (s : String) : Option ℚ :=
  let (neg, ds, rest) := splitNumber (trimList s.data)
  let fs := match rest with
    | '.' :: tail => leadingDigits tail
    | _ => []
  if ds.isEmpty ∧ fs.isEmpty then none
  else
    let n : ℚ := (digitsVal ds 0 : ℕ) + (digitsVal fs 0 : ℕ) / (10 : ℚ) ^ fs.length
    some (if neg then -n else n)

/-- `x || d` on a JS number that may be `NaN`: the default replaces both a
failed parse and a parsed `0` (both falsy). -/
def numOr (v : Option ℚ) (d : ℚ) : ℚ :=
  match v with
  | none => d
  | some x => if x = 0 then d else x

/-- `getVal` (source lines 132-135): `some ""` models the `''` returned
for an absent header, `none` models `undefined` for a short row. -/
def getVal (headers values : List String) (key : String) : Option String :=
  match headers.indexOf? key with
  | some idx => (values.get? idx).map jsTrim
  | none => some ""

def csvSex (v : Option String) : Sex :=
  if v = some "Female" then .female else .male

/-- `chestPainMap[getVal('cp')] || 'non-anginal'`. -/
def csvChestPain (v : Option String) : ChestPainType :=
  match v with
  | some "typical angina" => .typicalAngina
  | some "atypical angina" => .atypicalAngina
  | some "non-anginal" => .nonAnginal
  | some "asymptomatic" => .asymptomatic
  | _ => .nonAnginal

/-- `getVal('restecg') === 'lv hypertrophy' ? 'lv hypertrophy' : 'normal'`. -/
def csvECG (v : Option String) : RestingECG :=
  if v = some "lv hypertrophy" then .lvHypertrophy else .normal

/-- `slopeMap[getVal('slope')] || 'flat'`. -/
def csvSlope (v : Option String) : STSlope :=
  match v with
  | some "upsloping" => .upsloping
  | some "flat" => .flat
  | some "downsloping" => .downsloping
  | _ => .flat

def csvBool (v : Option String) : Bool :=
  v == some "TRUE" || v == some "1"

/-- One CSV data row turned into a `PatientData` (source lines 150-169).
`freshId` stands for the `generatePatientId()` call. -/
def mkPatientFromRow (freshId : String) (headers values : List String) : PatientData :=
  let g := getVal headers values
  { patientId := match g "id" with
      | some s => if s = "" then freshId else "PT-CSV-" ++ s
      | none => freshId,
    age := clampQ HEALTH_LIMITS.age.min HEALTH_LIMITS.age.max
      (numOr ((g "age").bind jsParseInt) 50),
    sex := csvSex (g "sex"),
    chestPainType := csvChestPain (g "cp"),
    restingBP := clampQ HEALTH_LIMITS.restingBP.min HEALTH_LIMITS.restingBP.max
      (numOr ((g "trestbps").bind jsParseInt) 120),
    cholesterol := clampQ HEALTH_LIMITS.cholesterol.min HEALTH_LIMITS.cholesterol.max
      (numOr ((g "chol").bind jsParseInt) 200),
    fastingBloodSugar := csvBool (g "fbs"),
    restingECG := csvECG (g "restecg"),
    maxHeartRate := clampQ HEALTH_LIMITS.maxHeartRate.min HEALTH_LIMITS.maxHeartRate.max
      (numOr ((g "thalch").bind jsParseInt) 150),
    exerciseAngina := csvBool (g "exang"),
    stDepression := clampQ HEALTH_LIMITS.stDepression.min HEALTH_LIMITS.stDepression.max
      (numOr ((g "oldpeak").bind jsParseFloat) 0),
    stSlope := csvSlope (g "slope") }

/-- `parseCSV` (source lines 123-175): header row, then at most the first
10 data rows, each mapped leniently into a `PatientData`. -/
def parseCSV (freshId text : String) : List PatientData :=
  let lines := jsSplit '\n' (jsTrim text)
  let headers := (jsSplit ',' (lines.headD "")).map (fun h => jsToLower (jsTrim h))
  ((lines.drop 1).take 10).map (fun line => mkPatientFromRow freshId headers (jsSplit ',' line))

/-! ### Strict validation (validation.ts `patientDataSchema` / `validatePatientData`)

The `unknown` input handed to `safeParse` is modelled as an object whose
twelve known properties each hold a JSON scalar or are absent (`none`,
JS `undefined`). Zod walks the schema field by field, collects an issue
for every failing field, and `validatePatientData` folds the issues into
a map keeping the first message per path; success requires every field
check to pass. -/

inductive JVal
| jbool (b : Bool)
| jnum (q : ℚ)
| jstr (s : String)
deriving DecidableEq, Repr

structure RawInput where
  patientId : Option JVal
  age : Option JVal
  sex : Option JVal
  chestPainType : Option JVal
  restingBP : Option JVal
  cholesterol : Option JVal
  fastingBloodSugar : Option JVal
  restingECG : Option JVal
  maxHeartRate : Option JVal
  exerciseAngina : Option JVal
  stDepression : Option JVal
  stSlope : Option JVal
deriving DecidableEq, Repr

/-- Characters accepted by the `patientId` regex `[a-zA-Z0-9\-_]`. -/
def isIdChar (c : Char) : Bool := c.isAlphanum || c == '-' || c == '_'

/-- `z.string().trim().min(1).max(50).regex(...)`: the value is trimmed
first, then the three checks run in order. -/
def checkId : Option JVal → Except String String
| none => .error "Required"
| some (.jstr s) =>
    let t := jsTrim s
    if t.length < 1 then .error "Patient ID is required"
    else if t.length > 50 then .error "Patient ID must be less than 50 characters"
    else if t.data.all isIdChar then .ok t
    else .error "Patient ID can only contain letters, numbers, hyphens, and underscores"
| some _ => .error "Expected string"

/-- `z.number()` with an optional `.int()` followed by `.min(lo).max(hi)`. -/
def checkNum (needInt : Bool) (lo hi : ℚ)
    (reqMsg typeMsg intMsg minMsg maxMsg : String) : Option JVal → Except String ℚ
| none => .error reqMsg
| some (.jnum q) =>
    if needInt = true ∧ q.den ≠ 1 then .error intMsg
    else if q < lo then .error minMsg
    else if q > hi then .error maxMsg
    else .ok q
| some _ => .error typeMsg

/-- `z.enum([...])`: a string drawn from a fixed dictionary. -/
def checkEnum {α : Type} (dict : String → Option α)
    (reqMsg invalidMsg : String) : Option JVal → Except String α
| none => .error reqMsg
| some (.jstr s) =>
    match dict s with
    | some a => .ok a
    | none => .error invalidMsg
| some _ => .error invalidMsg

/-- `z.boolean()`. -/
def checkBool : Option JVal → Except String Bool
| none => .error "Required"
| some (.jbool b) => .ok b
| some _ => .error "Expected boolean"

def sexDict (s : String) : Option Sex :=
  if s = "Male" then some .male
  else if s = "Female" then some .female
  else none

def chestPainDict (s : String) : Option ChestPainType :=
  if s = "typical angina" then some .typicalAngina
  else if s = "atypical angina" then some .atypicalAngina
  else if s = "non-anginal" then some .nonAnginal
  else if s = "asymptomatic" then some .asymptomatic
  else none

def ecgDict (s : String) : Option RestingECG :=
  if s = "normal" then some .normal
  else if s = "lv hypertrophy" then some .lvHypertrophy
  else if s = "st-t abnormality" then some .stTAbnormality
  else none

def slopeDict (s : String) : Option STSlope :=
  if s = "upsloping" then some .upsloping
  else if s = "flat" then some .flat
  else if s = "downsloping" then some .downsloping
  else none

def checkAge : Option JVal → Except String ℚ :=
  checkNum true HEALTH_LIMITS.age.min HEALTH_LIMITS.age.max
    "Age is required" "Age must be a number" "Age must be a whole number"
    "Age must be at least 1 year" "Age cannot exceed 120 years"

def checkRestingBP : Option JVal → Except String ℚ :=
  checkNum true HEALTH_LIMITS.restingBP.min HEALTH_LIMITS.restingBP.max
    "Resting blood pressure is required" "Blood pressure must be a number"
    "Blood pressure must be a whole number"
    "Blood pressure must be at least 60 mmHg" "Blood pressure cannot exceed 250 mmHg"

def checkCholesterol : Option JVal → Except String ℚ :=
  checkNum true HEALTH_LIMITS.cholesterol.min HEALTH_LIMITS.cholesterol.max
    "Cholesterol is required" "Cholesterol must be a number"
    "Cholesterol must be a whole number"
    "Cholesterol must be at least 50 mg/dL" "Cholesterol cannot exceed 600 mg/dL"

def checkMaxHeartRate : Option JVal → Except String ℚ :=
  checkNum true HEALTH_LIMITS.maxHeartRate.min HEALTH_LIMITS.maxHeartRate.max
    "Maximum heart rate is required" "Heart rate must be a number"
    "Heart rate must be a whole number"
    "Heart rate must be at least 40 bpm" "Heart rate cannot exceed 250 bpm"

def checkSTDepression : Option JVal → Except String ℚ :=
  checkNum false HEALTH_LIMITS.stDepression.min HEALTH_LIMITS.stDepression.max
    "ST depression is required" "ST depression must be a number" ""
    "ST depression must be at least 0 mm" "ST depression cannot exceed 10 mm"

def errOf {α : Type} : Except String α → Option String
| .ok _ => none
| .error m => some m

def valOf {α : Type} (d : α) : Except String α → α
| .ok a => a
| .error _ => d

/-- The per-field issue list, in schema field order. -/
def checkResults (i : RawInput) : List (String × Option String) :=
  [ ("patientId", errOf (checkId i.patientId)),
    ("age", errOf (checkAge i.age)),
    ("sex", errOf (checkEnum sexDict "Gender is required" "Invalid enum value" i.sex)),
    ("chestPainType", errOf (checkEnum chestPainDict "Chest pain type is required"
      "Invalid enum value" i.chestPainType)),
    ("restingBP", errOf (checkRestingBP i.restingBP)),
    ("cholesterol", errOf (checkCholesterol i.cholesterol)),
    ("fastingBloodSugar", errOf (checkBool i.fastingBloodSugar)),
    ("restingECG", errOf (checkEnum ecgDict "Resting ECG is required"
      "Invalid enum value" i.restingECG)),
    ("maxHeartRate", errOf (checkMaxHeartRate i.maxHeartRate)),
    ("exerciseAngina", errOf (checkBool i.exerciseAngina)),
    ("stDepression", errOf (checkSTDepression i.stDepression)),
    ("stSlope", errOf (checkEnum slopeDict "ST slope is required"
      "Invalid enum value" i.stSlope)) ]

/-- The per-field error map: first message per path, in issue order. -/
def collectIssues (l : List (String × Option String)) : List (String × String) :=
  l.filterMap (fun nm => nm.2.map (fun m => (nm.1, m)))

/-- `validatePatientData` (validation.ts lines 81-97): success with the
parsed record, or failure with the per-field error map. It never throws:
it is total by construction, mirroring `safeParse`. -/
def validatePatientData (i : RawInput) : Except (List (String × String)) PatientData :=
  let issues := collectIssues (checkResults i)
  if issues.isEmpty then
    .ok { patientId := valOf "" (checkId i.patientId),
          age := valOf 0 (checkAge i.age),
          sex := valOf .male (checkEnum sexDict "Gender is required" "Invalid enum value" i.sex),
          chestPainType := valOf .typicalAngina (checkEnum chestPainDict
            "Chest pain type is required" "Invalid enum value" i.chestPainType),
          restingBP := valOf 0 (checkRestingBP i.restingBP),
          cholesterol := valOf 0 (checkCholesterol i.cholesterol),
          fastingBloodSugar := valOf false (checkBool i.fastingBloodSugar),
          restingECG := valOf .normal (checkEnum ecgDict "Resting ECG is required"
            "Invalid enum value" i.restingECG),
          maxHeartRate := valOf 0 (checkMaxHeartRate i.maxHeartRate),
          exerciseAngina := valOf false (checkBool i.exerciseAngina),
          stDepression := valOf 0 (checkSTDepression i.stDepression),
          stSlope := valOf .flat (checkEnum slopeDict "ST slope is required"
            "Invalid enum value" i.stSlope) }
  else .error issues

/-! ### Auxiliary definitions used by the statements below -/

/-- The aggregation weight of each display-feature name, read off
`FEATURE_WEIGHTS` (zero for an unknown name). -/
def featureWeight : String → ℚ
| "Chest Pain Type" => FEATURE_WEIGHTS.chestPainType
| "Max Heart Rate" => FEATURE_WEIGHTS.maxHeartRate
| "ST Depression" => FEATURE_WEIGHTS.stDepression
| "Age" => FEATURE_WEIGHTS.age
| "Resting BP" => FEATURE_WEIGHTS.restingBP
| "Cholesterol" => FEATURE_WEIGHTS.cholesterol
| "ST Slope" => FEATURE_WEIGHTS.stSlope
| "Exercise Angina" => FEATURE_WEIGHTS.exerciseAngina
| "Sex" => FEATURE_WEIGHTS.sex
| "Fasting Blood Sugar" => FEATURE_WEIGHTS.fastingBloodSugar
| "Resting ECG" => FEATURE_WEIGHTS.restingECG
| _ => 0

/-- The sub-score of each display-feature name for a given record. -/
def featureScore (p : PatientData) : String → ℚ
| "Chest Pain Type" => calculateChestPainScore p.chestPainType
| "Max Heart Rate" => calculateMaxHRScore p.maxHeartRate p.age
| "ST Depression" => calculateSTDepressionScore p.stDepression
| "Age" => calculateAgeScore p.age
| "Resting BP" => calculateBPScore p.restingBP
| "Cholesterol" => calculateCholesterolScore p.cholesterol
| "ST Slope" => calculateSlopeScore p.stSlope
| "Exercise Angina" => anginaScoreOf p.exerciseAngina
| "Sex" => sexScoreOf p.sex
| "Fasting Blood Sugar" => fbsScoreOf p.fastingBloodSugar
| "Resting ECG" => ecgScoreOf p.restingECG
| _ => 0

/-- What the spec requires of a numeric schema field: present, a number,
an integer when demanded, and inside its bound. -/
def numOK (needInt : Bool) (lo hi : ℚ) (v : Option JVal) : Prop :=
  ∃ q, v = some (.jnum q) ∧ (needInt = true → q.den = 1) ∧ lo ≤ q ∧ q ≤ hi

/-- What the spec requires of the patient id: a string whose trimmed value
is 1-50 characters of letters, digits, hyphens and underscores. -/
def idOK (v : Option JVal) : Prop :=
  ∃ s, v = some (.jstr s) ∧ 1 ≤ (jsTrim s).length ∧ (jsTrim s).length ≤ 50 ∧
    (jsTrim s).data.all isIdChar = true

/-- What the spec requires of a boolean schema field. -/
def boolOK (v : Option JVal) : Prop := ∃ b, v = some (.jbool b)

/-- What the spec requires of an enum schema field: a string drawn from
the field's dictionary. -/
def enumOK {α : Type} (dict : String → Option α) (v : Option JVal) : Prop :=
  ∃ s, v = some (.jstr s) ∧ (dict s).isSome = true

/-- Validation failed and the per-field error map has an entry for `n`. -/
def errorWith (i : RawInput) (n : String) : Prop :=
  ∃ es, validatePatientData i = .error es ∧ (es.lookup n).isSome = true

/-- A CSV upload whose five numeric cells are all unparseable. -/
def csvDefaultsText : String := "age,trestbps,chol,thalch,oldpeak\nabc,abc,abc,abc,abc"

/-- A fully valid strict-mode input whose raw patient id carries
surrounding whitespace. -/
def rawInputTrimmedId : RawInput :=
  { patientId := some (.jstr " A-1 "), age := some (.jnum 63),
    sex := some (.jstr "Male"), chestPainType := some (.jstr "typical angina"),
    restingBP := some (.jnum 145), cholesterol := some (.jnum 233),
    fastingBloodSugar := some (.jbool true), restingECG := some (.jstr "lv hypertrophy"),
    maxHeartRate := some (.jnum 150), exerciseAngina := some (.jbool false),
    stDepression := some (.jnum 2), stSlope := some (.jstr "downsloping") }

/-- The same input with the age missing. -/
def rawInputMissingAge : RawInput := { rawInputTrimmedId with age := none }

/-! ## Helper lemmas -/

theorem calculateRisk_riskLevel (p : PatientData) (j : ℚ) :
    (calculateRisk p j).riskLevel = riskLevelOf (probabilityOf p j) := rfl

theorem calculateRisk_probability (p : PatientData) (j : ℚ) :
    (calculateRisk p j).probability = probabilityOf p j := rfl

theorem calculateRisk_thresholds (p : PatientData) (j : ℚ) :
    (calculateRisk p j).clinicalThresholds = buildClinicalThresholds p := rfl

theorem calculateRisk_contributions (p : PatientData) (j : ℚ) :
    (calculateRisk p j).featureContributions = (contributionsSorted p).take 6 := rfl

theorem riskLevelOf_high_iff (q : ℚ) : riskLevelOf q = RiskLevel.high ↔ 0.65 ≤ q := by
  unfold riskLevelOf
  split_ifs with h1 h2 <;> simp_all

theorem riskLevelOf_medium_iff (q : ℚ) :
    riskLevelOf q = RiskLevel.medium ↔ (0.35 ≤ q ∧ q < 0.65) := by
  unfold riskLevelOf
  split_ifs with h1 h2 <;> simp_all <;> linarith

theorem riskLevelOf_low_iff (q : ℚ) : riskLevelOf q = RiskLevel.low ↔ q < 0.35 := by
  unfold riskLevelOf
  split_ifs with h1 h2 <;> simp_all <;> linarith

theorem probabilityOf_bounds (p : PatientData) (j : ℚ) :
    0.05 ≤ probabilityOf p j ∧ probabilityOf p j ≤ 0.99 :=
  ⟨le_min (by norm_num) (le_max_left _ _), min_le_left _ _⟩

theorem exRawProb : rawProbability examplePatient = 0.466 := by
  norm_num [rawProbability, examplePatient, calculateChestPainScore, calculateAgeScore,
    calculateBPScore, calculateCholesterolScore, calculateMaxHRScore,
    calculateSTDepressionScore, calculateSlopeScore, anginaScoreOf, sexScoreOf,
    fbsScoreOf, ecgScoreOf, FEATURE_WEIGHTS.chestPainType, FEATURE_WEIGHTS.maxHeartRate,
    FEATURE_WEIGHTS.stDepression, FEATURE_WEIGHTS.age, FEATURE_WEIGHTS.restingBP,
    FEATURE_WEIGHTS.cholesterol, FEATURE_WEIGHTS.stSlope, FEATURE_WEIGHTS.exerciseAngina,
    FEATURE_WEIGHTS.sex, FEATURE_WEIGHTS.fastingBloodSugar, FEATURE_WEIGHTS.restingECG]

theorem exProbabilityOf (j : ℚ) (h1 : -0.025 ≤ j) (h2 : j ≤ 0.025) :
    probabilityOf examplePatient j = 0.466 + j := by
  rw [probabilityOf, exRawProb]
  rw [max_eq_right (by norm_num; linarith), min_eq_right (by norm_num; linarith)]

theorem exRiskLevel (j : ℚ) (h1 : -0.025 ≤ j) (h2 : j ≤ 0.025) :
    (calculateRisk examplePatient j).riskLevel = RiskLevel.medium := by
  rw [calculateRisk_riskLevel, exProbabilityOf j h1 h2, riskLevelOf]
  rw [if_neg (by norm_num; linarith), if_pos (by norm_num; linarith)]

theorem exThresholdBP : ∃ t ∈ buildClinicalThresholds examplePatient,
    t.metric = "Blood Pressure" ∧ t.status = ThresholdStatus.high := by
  refine ⟨_, List.Mem.head _, rfl, ?_⟩
  show (if examplePatient.restingBP ≥ 140 then ThresholdStatus.high
    else if examplePatient.restingBP ≥ 130 then ThresholdStatus.elevated
    else ThresholdStatus.normal) = ThresholdStatus.high
  rw [if_pos (by norm_num [examplePatient])]

theorem exThresholdST : ∃ t ∈ buildClinicalThresholds examplePatient,
    t.metric = "ST Depression" ∧ t.status = ThresholdStatus.high := by
  refine ⟨_, List.Mem.tail _ (List.Mem.tail _ (List.Mem.tail _ (List.Mem.head _))),
    rfl, ?_⟩
  show (if examplePatient.stDepression ≥ 2 then ThresholdStatus.high
    else if examplePatient.stDepression ≥ 1 then ThresholdStatus.elevated
    else ThresholdStatus.normal) = ThresholdStatus.high
  rw [if_pos (by norm_num [examplePatient])]

theorem contributionsSorted_pairwise (p : PatientData) :
    (contributionsSorted p).Pairwise (fun a b => |b.impact| ≤ |a.impact|) := by
  have h := @List.sorted_mergeSort FeatureContribution impactGE
    (fun a b c hab hbc => by
      simp only [impactGE, decide_eq_true_eq] at hab hbc ⊢
      exact le_trans hbc hab)
    (fun a b => by
      simp only [impactGE, Bool.or_eq_true, decide_eq_true_eq]
      exact le_total _ _)
    (contributionsUnsorted p)
  exact h.imp (fun hab => by simpa [impactGE] using hab)

theorem clampQ_mem (lo hi x : ℚ) (h : lo ≤ hi) :
    lo ≤ clampQ lo hi x ∧ clampQ lo hi x ≤ hi :=
  ⟨le_max_left _ _, max_le h (min_le_left _ _)⟩

theorem clampQ_of_le (lo hi x : ℚ) (h1 : lo ≤ x) (h2 : x ≤ hi) : clampQ lo hi x = x := by
  unfold clampQ
  rw [min_eq_right h2, max_eq_right h1]

theorem csvECG_cases (v : Option String) :
    csvECG v = RestingECG.normal ∨ csvECG v = RestingECG.lvHypertrophy := by
  unfold csvECG
  split_ifs <;> simp

/-! ## Claim C1 -/

/-- C1 (counterexample): for the spec's §8 example patient the claim
"riskLevel = High for every jitter in [-0.025, 0.025]" fails: at jitter 0
(a value inside that interval) the deterministic `calculateRisk` returns
riskLevel Medium, not High. -/
theorem spec_example_not_high :
    (-0.025 : ℚ) ≤ 0 ∧ (0 : ℚ) ≤ 0.025 ∧
    (calculateRisk examplePatient 0).riskLevel = RiskLevel.medium ∧
    RiskLevel.medium ≠ RiskLevel.high :=
  ⟨by norm_num, by norm_num, exRiskLevel 0 (by norm_num) (by norm_num), by simp⟩

/-- C1 (amended): for the spec's §8 example patient and every jitter in
[-0.025, 0.025], `calculateRisk` returns riskLevel Medium (probability
0.466 + jitter), a Blood Pressure threshold entry with status High, and
an ST Depression threshold entry with status High. -/
theorem spec_example_assessment (j : ℚ) (h1 : -0.025 ≤ j) (h2 : j ≤ 0.025) :
    (calculateRisk examplePatient j).riskLevel = RiskLevel.medium ∧
    (∃ t ∈ (calculateRisk examplePatient j).clinicalThresholds,
      t.metric = "Blood Pressure" ∧ t.status = ThresholdStatus.high) ∧
    (∃ t ∈ (calculateRisk examplePatient j).clinicalThresholds,
      t.metric = "ST Depression" ∧ t.status = ThresholdStatus.high) := by
  refine ⟨exRiskLevel j h1 h2, ?_, ?_⟩ <;> rw [calculateRisk_thresholds]
  · exact exThresholdBP
  · exact exThresholdST

/-- C1 (witness): the amended statement instantiated at jitter 0. -/
theorem spec_example_assessment_witness :
    (calculateRisk examplePatient 0).riskLevel = RiskLevel.medium ∧
    (∃ t ∈ (calculateRisk examplePatient 0).clinicalThresholds,
      t.metric = "Blood Pressure" ∧ t.status = ThresholdStatus.high) ∧
    (∃ t ∈ (calculateRisk examplePatient 0).clinicalThresholds,
      t.metric = "ST Depression" ∧ t.status = ThresholdStatus.high) :=
  spec_example_assessment 0 (by norm_num) (by norm_num)

/-! ## Claim C2 -/

/-- C2: for every in-bounds record and every jitter value, the returned
probability lies in [0.05, 0.99], and the risk level is the stated pure
function of that probability: High iff probability ≥ 0.65, Medium iff
0.35 ≤ probability < 0.65, Low iff probability < 0.35. -/
theorem probability_range_and_tiering (p : PatientData) (j : ℚ) (_hb : inBounds p) :
    (0.05 ≤ (calculateRisk p j).probability ∧ (calculateRisk p j).probability ≤ 0.99) ∧
    ((calculateRisk p j).riskLevel = RiskLevel.high ↔
      0.65 ≤ (calculateRisk p j).probability) ∧
    ((calculateRisk p j).riskLevel = RiskLevel.medium ↔
      (0.35 ≤ (calculateRisk p j).probability ∧ (calculateRisk p j).probability < 0.65)) ∧
    ((calculateRisk p j).riskLevel = RiskLevel.low ↔
      (calculateRisk p j).probability < 0.35) := by
  rw [calculateRisk_riskLevel, calculateRisk_probability]
  exact ⟨probabilityOf_bounds p j, riskLevelOf_high_iff _, riskLevelOf_medium_iff _,
    riskLevelOf_low_iff _⟩

/-- C2 (witness): the statement instantiated at the example patient with
jitter 0. -/
theorem probability_range_and_tiering_witness :
    (0.05 ≤ (calculateRisk examplePatient 0).probability ∧
      (calculateRisk examplePatient 0).probability ≤ 0.99) ∧
    ((calculateRisk examplePatient 0).riskLevel = RiskLevel.high ↔
      0.65 ≤ (calculateRisk examplePatient 0).probability) ∧
    ((calculateRisk examplePatient 0).riskLevel = RiskLevel.medium ↔
      (0.35 ≤ (calculateRisk examplePatient 0).probability ∧
        (calculateRisk examplePatient 0).probability < 0.65)) ∧
    ((calculateRisk examplePatient 0).riskLevel = RiskLevel.low ↔
      (calculateRisk examplePatient 0).probability < 0.35) :=
  probability_range_and_tiering examplePatient 0 (by
    norm_num [inBounds, examplePatient, HEALTH_LIMITS.age, HEALTH_LIMITS.restingBP,
      HEALTH_LIMITS.cholesterol, HEALTH_LIMITS.maxHeartRate, HEALTH_LIMITS.stDepression])

/-! ## Claim C4 -/

/-- C4: for every in-bounds record, the returned featureContributions list
has length at most 6 and is sorted by non-increasing absolute impact. -/
theorem contributions_length_sorted (p : PatientData) (j : ℚ) (_hb : inBounds p) :
    (calculateRisk p j).featureContributions.length ≤ 6 ∧
    (calculateRisk p j).featureContributions.Pairwise
      (fun a b => |b.impact| ≤ |a.impact|) := by
  rw [calculateRisk_contributions]
  constructor
  · simp [List.length_take]
  · exact List.Pairwise.sublist (List.take_sublist 6 _) (contributionsSorted_pairwise p)

/-- C4 (witness): the statement instantiated at the example patient with
jitter 0. -/
theorem contributions_length_sorted_witness :
    (calculateRisk examplePatient 0).featureContributions.length ≤ 6 ∧
    (calculateRisk examplePatient 0).featureContributions.Pairwise
      (fun a b => |b.impact| ≤ |a.impact|) :=
  contributions_length_sorted examplePatient 0 (by
    norm_num [inBounds, examplePatient, HEALTH_LIMITS.age, HEALTH_LIMITS.restingBP,
      HEALTH_LIMITS.cholesterol, HEALTH_LIMITS.maxHeartRate, HEALTH_LIMITS.stDepression])

/-! ## Claim C8 -/

/-- C8: for every pair of records that differ only in chestPainType (one is
the other with that field replaced), `calculateRisk` returns an identical
clinicalThresholds sequence. -/
theorem thresholds_ignore_chest_pain (p : PatientData) (ct : ChestPainType) (j : ℚ) :
    (calculateRisk { p with chestPainType := ct } j).clinicalThresholds =
      (calculateRisk p j).clinicalThresholds := by
  rw [calculateRisk_thresholds, calculateRisk_thresholds]
  cases p
  rfl

/-! ## Claim C9 -/

/-- C9: with the jitter term fixed to zero, two calls of `calculateRisk` on
the same record return identical RiskResult values. -/
theorem assessment_deterministic_without_jitter (p : PatientData) (j1 j2 : ℚ)
    (h1 : j1 = 0) (h2 : j2 = 0) : calculateRisk p j1 = calculateRisk p j2 := by
  rw [h1, h2]

/-- C9 (witness): the statement instantiated at the example patient. -/
theorem assessment_deterministic_without_jitter_witness :
    calculateRisk examplePatient 0 = calculateRisk examplePatient 0 :=
  assessment_deterministic_without_jitter examplePatient 0 0 rfl rfl

/-! ## Claim C3 -/

/-- C3 (counterexample): the claim that every one of the eleven features
receives a contribution before truncation fails: for the example patient
the pre-truncation contributions list has only 8 entries, and Sex,
Fasting Blood Sugar and Resting ECG appear in no entry. -/
theorem contributions_not_eleven :
    (contributionsUnsorted examplePatient).length = 8 ∧ (8 : ℕ) ≠ 11 ∧
    "Sex" ∉ (contributionsUnsorted examplePatient).map (fun c => c.feature) ∧
    "Fasting Blood Sugar" ∉
      (contributionsUnsorted examplePatient).map (fun c => c.feature) ∧
    "Resting ECG" ∉ (contributionsUnsorted examplePatient).map (fun c => c.feature) := by
  refine ⟨rfl, by norm_num, ?_, ?_, ?_⟩ <;>
    simp [contributionsUnsorted, rawContributions, contributionOf]

/-- C3 (amended): exactly eight features (chest pain type, max heart rate,
ST depression, age, resting BP, cholesterol, ST slope, exercise angina)
receive a contribution before truncation, and each such contribution's
impact equals (sub-score - 0.5) × weight × 2 rounded to 2 decimals, with
weight the feature's aggregation weight. -/
theorem contribution_impact_formula (p : PatientData) :
    (contributionsUnsorted p).map (fun c => c.feature) =
      ["Chest Pain Type", "Max Heart Rate", "ST Depression", "Age", "Resting BP",
        "Cholesterol", "ST Slope", "Exercise Angina"] ∧
    ∀ c ∈ contributionsUnsorted p,
      c.impact = roundTwo ((featureScore p c.feature - 0.5) * featureWeight c.feature * 2) := by
  refine ⟨rfl, ?_⟩
  intro c hc
  simp only [contributionsUnsorted, rawContributions, List.map_cons, List.map_nil,
    List.mem_cons, List.not_mem_nil, or_false] at hc
  rcases hc with rfl | rfl | rfl | rfl | rfl | rfl | rfl | rfl <;> rfl

/-- C3 (witness): the amended statement applied at the example patient and
the head of its contributions list. -/
theorem contribution_impact_formula_witness :
    ∃ c ∈ contributionsUnsorted examplePatient,
      c.impact = roundTwo ((featureScore examplePatient c.feature - 0.5) *
        featureWeight c.feature * 2) :=
  ⟨_, List.Mem.head _,
    (contribution_impact_formula examplePatient).2 _ (List.Mem.head _)⟩

/-! ## Claim C5 -/

/-- C5: every record produced by lenient parseCSV has each numeric field
inside its documented bound; and a row whose numeric cells are all
unparseable is still included, with the documented per-field defaults
(age 50, restingBP 120, cholesterol 200, maxHeartRate 150, stDepression 0). -/
theorem lenient_csv_clamped_with_defaults :
    (∀ freshId text : String, ∀ p ∈ parseCSV freshId text, inBounds p) ∧
    (∃ p, parseCSV "X" csvDefaultsText = [p] ∧ p.age = 50 ∧ p.restingBP = 120 ∧
      p.cholesterol = 200 ∧ p.maxHeartRate = 150 ∧ p.stDepression = 0) := by
  constructor
  · intro freshId text p hp
    simp only [parseCSV, List.mem_map] at hp
    obtain ⟨line, _, rfl⟩ := hp
    refine ⟨?_, ?_, ?_, ?_, ?_, ?_, ?_, ?_, ?_, ?_⟩
    · exact (clampQ_mem _ _ _ (by norm_num [HEALTH_LIMITS.age])).1
    · exact (clampQ_mem _ _ _ (by norm_num [HEALTH_LIMITS.age])).2
    · exact (clampQ_mem _ _ _ (by norm_num [HEALTH_LIMITS.restingBP])).1
    · exact (clampQ_mem _ _ _ (by norm_num [HEALTH_LIMITS.restingBP])).2
    · exact (clampQ_mem _ _ _ (by norm_num [HEALTH_LIMITS.cholesterol])).1
    · exact (clampQ_mem _ _ _ (by norm_num [HEALTH_LIMITS.cholesterol])).2
    · exact (clampQ_mem _ _ _ (by norm_num [HEALTH_LIMITS.maxHeartRate])).1
    · exact (clampQ_mem _ _ _ (by norm_num [HEALTH_LIMITS.maxHeartRate])).2
    · exact (clampQ_mem _ _ _ (by norm_num [HEALTH_LIMITS.stDepression])).1
    · exact (clampQ_mem _ _ _ (by norm_num [HEALTH_LIMITS.stDepression])).2
  · refine ⟨_, rfl, ?_, ?_, ?_, ?_, ?_⟩
    · show clampQ 1 120 50 = (50 : ℚ)
      exact clampQ_of_le _ _ _ (by norm_num) (by norm_num)
    · show clampQ 60 250 120 = (120 : ℚ)
      exact clampQ_of_le _ _ _ (by norm_num) (by norm_num)
    · show clampQ 50 600 200 = (200 : ℚ)
      exact clampQ_of_le _ _ _ (by norm_num) (by norm_num)
    · show clampQ 40 250 150 = (150 : ℚ)
      exact clampQ_of_le _ _ _ (by norm_num) (by norm_num)
    · show clampQ 0 10 0 = (0 : ℚ)
      exact clampQ_of_le _ _ _ (by norm_num) (by norm_num)

/-- C5 (witness): the bound statement applied to the concrete record parsed
from the all-unparseable CSV upload. -/
theorem lenient_csv_clamped_with_defaults_witness :
    inBounds (mkPatientFromRow "X" ["age", "trestbps", "chol", "thalch", "oldpeak"]
      ["abc", "abc", "abc", "abc", "abc"]) :=
  lenient_csv_clamped_with_defaults.1 "X" csvDefaultsText _ (List.Mem.head _)

/-! ## Claim C6 -/

/-- C6 (counterexample): at age 10 (inside [1,120]) and maxHeartRate 225
the code returns a warning although 225 does not exceed (220 - 10) + 20,
so "warning exactly when maxHeartRate > (220 - age) + 20" fails. -/
theorem maxhr_warning_within_claimed_bound :
    (1 : ℚ) ≤ 10 ∧ (10 : ℚ) ≤ 120 ∧
    (validateMaxHeartRateForAge 10 225).isSome = true ∧
    ¬((225 : ℚ) > (220 - 10) + 20) := by
  refine ⟨by norm_num, by norm_num, ?_, by norm_num⟩
  unfold validateMaxHeartRateForAge
  rw [if_pos]
  · rfl
  · rw [min_eq_right (by norm_num)]
    norm_num

/-- C6 (amended): for every age in [1,120] and every maxHeartRate, the
plausibility check warns exactly when maxHeartRate exceeds
min((220 - age) + 20, 220) — the buffer above the theoretical maximum is
additionally capped at 220 bpm. -/
theorem maxhr_warning_iff_capped (age maxHR : ℚ) (h1 : 1 ≤ age) (h2 : age ≤ 120) :
    (validateMaxHeartRateForAge age maxHR).isSome = true ↔
      maxHR > min ((220 - age) + 20) 220 := by
  simp only [validateMaxHeartRateForAge]
  split_ifs with h <;> simp [h]

/-- C6 (witness): the amended statement instantiated at age 63,
maxHeartRate 200. -/
theorem maxhr_warning_iff_capped_witness :
    (validateMaxHeartRateForAge 63 200).isSome = true ↔
      (200 : ℚ) > min ((220 - 63) + 20) 220 :=
  maxhr_warning_iff_capped 63 200 (by norm_num) (by norm_num)

/-! ## Claim C10 -/

/-- C10: every record produced by lenient parseCSV has restingECG normal or
lv hypertrophy; in particular a restecg cell holding the valid category
"st-t abnormality" is mapped to normal, so batch ingestion never produces
an st-t abnormality record. -/
theorem csv_restecg_never_stt :
    (∀ freshId text : String, ∀ p ∈ parseCSV freshId text,
      p.restingECG = RestingECG.normal ∨ p.restingECG = RestingECG.lvHypertrophy) ∧
    (∃ p, parseCSV "X" "restecg\nst-t abnormality" = [p] ∧
      p.restingECG = RestingECG.normal) := by
  constructor
  · intro freshId text p hp
    simp only [parseCSV, List.mem_map] at hp
    obtain ⟨line, _, rfl⟩ := hp
    exact csvECG_cases _
  · exact ⟨_, rfl, rfl⟩

/-- C10 (witness): the invariant applied to the concrete record parsed from
an upload whose restecg cell is "st-t abnormality". -/
theorem csv_restecg_never_stt_witness :
    (mkPatientFromRow "X" ["restecg"] ["st-t abnormality"]).restingECG =
      RestingECG.normal ∨
    (mkPatientFromRow "X" ["restecg"] ["st-t abnormality"]).restingECG =
      RestingECG.lvHypertrophy :=
  csv_restecg_never_stt.1 "X" "restecg\nst-t abnormality" _ (List.Mem.head _)

/-! ## Claim C7: helper lemmas -/

theorem errOf_checkNum_none_iff (b : Bool) (lo hi : ℚ) (m1 m2 m3 m4 m5 : String)
    (v : Option JVal) :
    errOf (checkNum b lo hi m1 m2 m3 m4 m5 v) = none ↔ numOK b lo hi v := by
  cases v with
  | none => simp [checkNum, errOf, numOK]
  | some jv =>
    cases jv with
    | jbool bb => simp [checkNum, errOf, numOK]
    | jstr s => simp [checkNum, errOf, numOK]
    | jnum q =>
      simp only [checkNum, numOK, Option.some.injEq, JVal.jnum.injEq, exists_eq_left']
      split_ifs with h1 h2 h3 <;> simp [errOf]
      · exact fun hint _ => absurd (hint h1.1) h1.2
      · exact fun _ hlo => absurd h2 (not_lt.mpr hlo)
      · exact fun _ _ => h3
      · exact ⟨fun hb => by_contra fun hden => h1 ⟨hb, hden⟩,
          le_of_not_lt h2, le_of_not_lt h3⟩

theorem errOf_checkEnum_none_iff {α : Type} (dict : String → Option α)
    (m1 m2 : String) (v : Option JVal) :
    errOf (checkEnum dict m1 m2 v) = none ↔ enumOK dict v := by
  cases v with
  | none => simp [checkEnum, errOf, enumOK]
  | some jv =>
    cases jv with
    | jbool bb => simp [checkEnum, errOf, enumOK]
    | jnum q => simp [checkEnum, errOf, enumOK]
    | jstr s =>
      cases hd : dict s <;> simp [checkEnum, errOf, enumOK, hd]

theorem errOf_checkBool_none_iff (v : Option JVal) :
    errOf (checkBool v) = none ↔ boolOK v := by
  cases v with
  | none => simp [checkBool, errOf, boolOK]
  | some jv => cases jv <;> simp [checkBool, errOf, boolOK]

theorem errOf_checkId_none_iff (v : Option JVal) :
    errOf (checkId v) = none ↔ idOK v := by
  cases v with
  | none => simp [checkId, errOf, idOK]
  | some jv =>
    cases jv with
    | jbool bb => simp [checkId, errOf, idOK]
    | jnum q => simp [checkId, errOf, idOK]
    | jstr s =>
      simp only [checkId, idOK, Option.some.injEq, JVal.jstr.injEq, exists_eq_left']
      split_ifs with h1 h2 h3 <;> simp [errOf]
      · exact fun hlen _ => absurd h1 (by omega)
      · exact fun _ hlen => absurd h2 (by omega)
      · exact ⟨by omega, by omega, List.all_eq_true.mp h3⟩
      · intro _ _
        simpa using h3

theorem lookup_collect_isSome (l : List (String × Option String)) (n m : String)
    (h : (n, some m) ∈ l) : ((collectIssues l).lookup n).isSome = true := by
  induction l with
  | nil => cases h
  | cons hd tl ih =>
    obtain ⟨n2, o⟩ := hd
    rcases List.mem_cons.mp h with heq | htl
    · injection heq with hn ho
      subst hn
      subst ho
      simp [collectIssues, List.lookup]
    · cases o with
      | none =>
        have hc : collectIssues ((n2, none) :: tl) = collectIssues tl := by
          simp [collectIssues]
        rw [hc]
        exact ih htl
      | some m2 =>
        have hc : collectIssues ((n2, some m2) :: tl) = (n2, m2) :: collectIssues tl := by
          simp [collectIssues]
        rw [hc]
        by_cases hnn : n = n2
        · subst hnn
          simp [List.lookup]
        · have hb : (n == n2) = false := beq_eq_false_iff_ne.mpr hnn
          simp only [List.lookup, hb]
          exact ih htl

theorem validate_error_of_issue (i : RawInput) (n m : String)
    (h : (n, some m) ∈ checkResults i) : errorWith i n := by
  have hl := lookup_collect_isSome _ n m h
  have hne : (collectIssues (checkResults i)).isEmpty = false := by
    cases he : collectIssues (checkResults i) with
    | nil => rw [he] at hl; simp [List.lookup] at hl
    | cons a b => rfl
  refine ⟨collectIssues (checkResults i), ?_, hl⟩
  simp only [validatePatientData]
  rw [hne]
  rfl

theorem invalid_field_error {α : Type} (i : RawInput) (n : String) (r : Except String α)
    (hmem : (n, errOf r) ∈ checkResults i) (hne : errOf r ≠ none) : errorWith i n := by
  obtain ⟨m, hm⟩ := Option.ne_none_iff_exists'.mp hne
  exact validate_error_of_issue i n m (hm ▸ hmem)

/-! ## Claim C7 -/

/-- C7 (counterexample): "rejects any patientId not matching the 1-50
character alphanumeric/hyphen/underscore pattern" fails on the raw value:
the id " A-1 " does not match the pattern (it contains spaces), yet the
otherwise-valid input carrying it is accepted, because the schema trims
the id before checking. -/
theorem raw_id_pattern_not_enforced :
    (∃ d, validatePatientData rawInputTrimmedId = .ok d) ∧
    rawInputTrimmedId.patientId = some (.jstr " A-1 ") ∧
    (" A-1 ".data.all isIdChar) = false :=
  ⟨⟨_, rfl⟩, rfl, rfl⟩

/-- C7 (amended): strict validation is total (it returns success or a
per-field error map, never throwing); whenever a field is missing, of the
wrong type, out of its bound — or the patientId, after trimming
surrounding whitespace, fails the 1-50 character
alphanumeric/hyphen/underscore pattern — the result is a failure whose
error map contains an entry for that field; and when every field is valid
the result is a success with the parsed record. -/
theorem strict_validation_error_map (i : RawInput) :
    (¬ idOK i.patientId → errorWith i "patientId") ∧
    (¬ numOK true HEALTH_LIMITS.age.min HEALTH_LIMITS.age.max i.age →
      errorWith i "age") ∧
    (¬ enumOK sexDict i.sex → errorWith i "sex") ∧
    (¬ enumOK chestPainDict i.chestPainType → errorWith i "chestPainType") ∧
    (¬ numOK true HEALTH_LIMITS.restingBP.min HEALTH_LIMITS.restingBP.max i.restingBP →
      errorWith i "restingBP") ∧
    (¬ numOK true HEALTH_LIMITS.cholesterol.min HEALTH_LIMITS.cholesterol.max
      i.cholesterol → errorWith i "cholesterol") ∧
    (¬ boolOK i.fastingBloodSugar → errorWith i "fastingBloodSugar") ∧
    (¬ enumOK ecgDict i.restingECG → errorWith i "restingECG") ∧
    (¬ numOK true HEALTH_LIMITS.maxHeartRate.min HEALTH_LIMITS.maxHeartRate.max
      i.maxHeartRate → errorWith i "maxHeartRate") ∧
    (¬ boolOK i.exerciseAngina → errorWith i "exerciseAngina") ∧
    (¬ numOK false HEALTH_LIMITS.stDepression.min HEALTH_LIMITS.stDepression.max
      i.stDepression → errorWith i "stDepression") ∧
    (¬ enumOK slopeDict i.stSlope → errorWith i "stSlope") ∧
    ((idOK i.patientId ∧ numOK true HEALTH_LIMITS.age.min HEALTH_LIMITS.age.max i.age ∧
      enumOK sexDict i.sex ∧ enumOK chestPainDict i.chestPainType ∧
      numOK true HEALTH_LIMITS.restingBP.min HEALTH_LIMITS.restingBP.max i.restingBP ∧
      numOK true HEALTH_LIMITS.cholesterol.min HEALTH_LIMITS.cholesterol.max
        i.cholesterol ∧
      boolOK i.fastingBloodSugar ∧ enumOK ecgDict i.restingECG ∧
      numOK true HEALTH_LIMITS.maxHeartRate.min HEALTH_LIMITS.maxHeartRate.max
        i.maxHeartRate ∧
      boolOK i.exerciseAngina ∧
      numOK false HEALTH_LIMITS.stDepression.min HEALTH_LIMITS.stDepression.max
        i.stDepression ∧
      enumOK slopeDict i.stSlope) →
      ∃ d, validatePatientData i = .ok d) := by
  refine ⟨?_, ?_, ?_, ?_, ?_, ?_, ?_, ?_, ?_, ?_, ?_, ?_, ?_⟩
  · intro h
    exact invalid_field_error i "patientId" (checkId i.patientId) (by simp [checkResults])
      (fun h0 => h ((errOf_checkId_none_iff _).mp h0))
  · intro h
    exact invalid_field_error i "age" (checkAge i.age) (by simp [checkResults])
      (fun h0 => h ((errOf_checkNum_none_iff _ _ _ _ _ _ _ _ _).mp h0))
  · intro h
    exact invalid_field_error i "sex"
      (checkEnum sexDict "Gender is required" "Invalid enum value" i.sex)
      (by simp [checkResults])
      (fun h0 => h ((errOf_checkEnum_none_iff _ _ _ _).mp h0))
  · intro h
    exact invalid_field_error i "chestPainType"
      (checkEnum chestPainDict "Chest pain type is required" "Invalid enum value"
        i.chestPainType)
      (by simp [checkResults])
      (fun h0 => h ((errOf_checkEnum_none_iff _ _ _ _).mp h0))
  · intro h
    exact invalid_field_error i "restingBP" (checkRestingBP i.restingBP)
      (by simp [checkResults])
      (fun h0 => h ((errOf_checkNum_none_iff _ _ _ _ _ _ _ _ _).mp h0))
  · intro h
    exact invalid_field_error i "cholesterol" (checkCholesterol i.cholesterol)
      (by simp [checkResults])
      (fun h0 => h ((errOf_checkNum_none_iff _ _ _ _ _ _ _ _ _).mp h0))
  · intro h
    exact invalid_field_error i "fastingBloodSugar" (checkBool i.fastingBloodSugar)
      (by simp [checkResults])
      (fun h0 => h ((errOf_checkBool_none_iff _).mp h0))
  · intro h
    exact invalid_field_error i "restingECG"
      (checkEnum ecgDict "Resting ECG is required" "Invalid enum value" i.restingECG)
      (by simp [checkResults])
      (fun h0 => h ((errOf_checkEnum_none_iff _ _ _ _).mp h0))
  · intro h
    exact invalid_field_error i "maxHeartRate" (checkMaxHeartRate i.maxHeartRate)
      (by simp [checkResults])
      (fun h0 => h ((errOf_checkNum_none_iff _ _ _ _ _ _ _ _ _).mp h0))
  · intro h
    exact invalid_field_error i "exerciseAngina" (checkBool i.exerciseAngina)
      (by simp [checkResults])
      (fun h0 => h ((errOf_checkBool_none_iff _).mp h0))
  · intro h
    exact invalid_field_error i "stDepression" (checkSTDepression i.stDepression)
      (by simp [checkResults])
      (fun h0 => h ((errOf_checkNum_none_iff _ _ _ _ _ _ _ _ _).mp h0))
  · intro h
    exact invalid_field_error i "stSlope"
      (checkEnum slopeDict "ST slope is required" "Invalid enum value" i.stSlope)
      (by simp [checkResults])
      (fun h0 => h ((errOf_checkEnum_none_iff _ _ _ _).mp h0))
  · rintro ⟨h1, h2, h3, h4, h5, h6, h7, h8, h9, h10, h11, h12⟩
    have e1 : errOf (checkId i.patientId) = none := (errOf_checkId_none_iff _).mpr h1
    have e2 : errOf (checkAge i.age) = none :=
      (errOf_checkNum_none_iff _ _ _ _ _ _ _ _ _).mpr h2
    have e3 : errOf (checkEnum sexDict "Gender is required" "Invalid enum value"
        i.sex) = none :=
      (errOf_checkEnum_none_iff _ _ _ _).mpr h3
    have e4 : errOf (checkEnum chestPainDict "Chest pain type is required"
        "Invalid enum value" i.chestPainType) = none :=
      (errOf_checkEnum_none_iff _ _ _ _).mpr h4
    have e5 : errOf (checkRestingBP i.restingBP) = none :=
      (errOf_checkNum_none_iff _ _ _ _ _ _ _ _ _).mpr h5
    have e6 : errOf (checkCholesterol i.cholesterol) = none :=
      (errOf_checkNum_none_iff _ _ _ _ _ _ _ _ _).mpr h6
    have e7 : errOf (checkBool i.fastingBloodSugar) = none :=
      (errOf_checkBool_none_iff _).mpr h7
    have e8 : errOf (checkEnum ecgDict "Resting ECG is required"
        "Invalid enum value" i.restingECG) = none :=
      (errOf_checkEnum_none_iff _ _ _ _).mpr h8
    have e9 : errOf (checkMaxHeartRate i.maxHeartRate) = none :=
      (errOf_checkNum_none_iff _ _ _ _ _ _ _ _ _).mpr h9
    have e10 : errOf (checkBool i.exerciseAngina) = none :=
      (errOf_checkBool_none_iff _).mpr h10
    have e11 : errOf (checkSTDepression i.stDepression) = none :=
      (errOf_checkNum_none_iff _ _ _ _ _ _ _ _ _).mpr h11
    have e12 : errOf (checkEnum slopeDict "ST slope is required"
        "Invalid enum value" i.stSlope) = none :=
      (errOf_checkEnum_none_iff _ _ _ _).mpr h12
    have hc : collectIssues (checkResults i) = [] := by
      simp [checkResults, collectIssues, e1, e2, e3, e4, e5, e6, e7, e8, e9, e10,
        e11, e12]
    simp only [validatePatientData]
    rw [hc]
    exact ⟨_, rfl⟩

/-- C7 (witness): the amended statement applied at an input with a missing
age, discharging that conjunct's hypothesis. -/
theorem strict_validation_error_map_witness : errorWith rawInputMissingAge "age" :=
  (strict_validation_error_map rawInputMissingAge).2.1 (by simp [numOK, rawInputMissingAge])

end Med2Predict
